import Mathlib

/-!
Shallow embedding of the event-registration core of the
`tt_event_management` repository (Django application, `src/events/`).

Model decisions:
* Timestamps are `Nat` (the embedding only compares them, as the code does).
* Users are identified by `Nat` ids; an `Event` row carries the fields the
  registration logic reads (`id`, `organizer`, `date`, `max_participants`);
  an `EventRegistration` row carries `event` id, `user` id, `registered_at`
  (set from the admission time, mirroring `auto_now_add`).
* The database is a `State` of the two tables.  Django querysets become list
  operations: `registrations.count()` is a filtered length, the
  `unique_together ['event', 'user']` constraint is modelled in the
  low-level insert primitive, and the default `Meta.ordering
  ['-registered_at']` of `EventRegistration` becomes a `mergeSort` by
  descending `registered_at`.
* HTTP endpoints become pure functions from a state and the caller's
  identity to a new state and a typed response, following
  `src/events/views.py` and `src/events/serializers.py` line by line.
-/

/-- Event row: the fields of `events.models.Event` that the registration
logic reads (`src/events/models.py` lines 7-24).  `max_participants` is
nullable ("Leave empty for unlimited"). -/
structure Event where
  id : Nat
  organizer : Nat
  date : Nat
  max_participants : Option Nat
deriving Repr, DecidableEq

/-- Registration row: `events.models.EventRegistration`
(`src/events/models.py` lines 54-65): event FK, user FK, `registered_at`. -/
structure EventRegistration where
  event : Nat
  user : Nat
  registered_at : Nat
deriving Repr, DecidableEq

/-- Database state: the `Event` and `EventRegistration` tables. -/
structure State where
  events : List Event
  registrations : List EventRegistration
deriving Repr, DecidableEq

/-- Lookup `Event.objects.get(id=eid)`: the first event with the given id
(`src/events/serializers.py` line 64; ids are unique in a real table). -/
def findEvent (s : State) (eid : Nat) : Option Event :=
  s.events.find? (fun e => e.id == eid)

/-- Property `Event.registered_count` (`src/events/models.py` lines 36-39):
`self.registrations.count()`, derived live from the registration table. -/
def registered_count (s : State) (eid : Nat) : Nat :=
  (s.registrations.filter (fun r => r.event == eid)).length

/-- Property `Event.is_full` (`src/events/models.py` lines 41-46):
`False` when `max_participants is None`, else
`registered_count >= max_participants`. -/
def is_full (s : State) (e : Event) : Bool :=
  match e.max_participants with
  | none => false
  | some m => decide (m ≤ registered_count s e.id)

/-- Property `Event.is_past` (`src/events/models.py` lines 48-51):
`self.date < timezone.now()`. -/
def is_past (now : Nat) (e : Event) : Bool := decide (e.date < now)

/-- Queryset test `EventRegistration.objects.filter(event=..., user=...).exists()`
(`src/events/serializers.py` line 77). -/
def isRegistered (s : State) (eid user : Nat) : Bool :=
  s.registrations.any (fun r => r.event == eid && r.user == user)

/-- Number of live registration rows for one (event, user) pair.  The
`unique_together ['event', 'user']` constraint of
`src/events/models.py` line 68 keeps this at most 1 in any reachable
database. -/
def pairCount (s : State) (eid user : Nat) : Nat :=
  (s.registrations.filter (fun r => r.event == eid && r.user == user)).length

/-- Typed errors of the registration endpoints (spec section 7 taxonomy),
as produced by `src/events/views.py` and `src/events/serializers.py`. -/
inductive RegError where
  | NotFound
  | Closed
  | Full
  | AlreadyRegistered
  | NotRegistered
  | Forbidden
  | Unauthenticated
deriving Repr, DecidableEq

/-- HTTP status each typed error is returned with:
`NotFound` 404 via `get_object` (`views.py` line 113 raising Http404),
`Closed`, `Full`, `AlreadyRegistered` 400 via serializer errors
(`views.py` line 138), `NotRegistered` 404 (`views.py` line 159),
`Forbidden` 403 (`views.py` line 172), `Unauthenticated` 401 via the DRF
`IsAuthenticated` permission on every action. -/
def statusCode : RegError → Nat
  | .NotFound => 404
  | .Closed => 400
  | .Full => 400
  | .AlreadyRegistered => 400
  | .NotRegistered => 404
  | .Forbidden => 403
  | .Unauthenticated => 401

/-- Message text each typed error carries: the literal strings of
`src/events/serializers.py` lines 66, 69, 72, 78 and
`src/events/views.py` lines 158, 171; the `Unauthenticated` text is the
framework default for the `IsAuthenticated` permission. -/
def errorMessage : RegError → String
  | .NotFound => "Event does not exist."
  | .Closed => "Cannot register for past events."
  | .Full => "Event is full."
  | .AlreadyRegistered => "You are already registered for this event."
  | .NotRegistered => "You are not registered for this event"
  | .Forbidden => "Only the organizer can view registrations"
  | .Unauthenticated => "Authentication credentials were not provided."

/-- Validation step `EventRegistrationCreateSerializer.validate_event_id`
(`src/events/serializers.py` lines 61-80), with the checks in the source
order: existence, then `is_past`, then `is_full`, then the
already-registered lookup.  Returns the first failing check's error, or
`none` when validation passes. -/
def validate_event_id (s : State) (now user eid : Nat) : Option RegError :=
  match findEvent s eid with
  | none => some .NotFound
  | some event =>
    if is_past now event then some .Closed
    else if is_full s event then some .Full
    else if isRegistered s eid user then some .AlreadyRegistered
    else none

/-- Insert step `EventRegistrationCreateSerializer.create`
(`src/events/serializers.py` lines 82-86):
`EventRegistration.objects.create(event=event, user=user)` appends a row
whose `registered_at` is the commit time (`auto_now_add`). -/
def createRegistration (s : State) (eid user now : Nat) : State :=
  { s with registrations := s.registrations ++ [⟨eid, user, now⟩] }

/-- Result of the register endpoint: 201 with the created row, or a typed
error (404 from `get_object`, 400 from the serializer). -/
inductive RegResult where
  | created (r : EventRegistration)
  | err (e : RegError)
deriving Repr, DecidableEq

/-- HTTP status of a register response (`views.py` lines 133-138). -/
def regStatus : RegResult → Nat
  | .created _ => 201
  | .err e => statusCode e

/-- Endpoint `EventViewSet.register` (`src/events/views.py` lines 106-138):
`get_object` (404 when the event id is absent), then serializer
validation, then `serializer.save()`; the post-commit email send is
wrapped in try/except whose failure is only logged ("Log error but don't
fail the registration", line 126) before the 201 response.  `notifyOk`
is the outcome of the `send_registration_email` attempt; the returned
list of strings is the log. -/
def register (s : State) (now user eid : Nat) (notifyOk : Bool) :
    State × RegResult × List String :=
  match findEvent s eid with
  | none => (s, .err .NotFound, [])
  | some _ =>
    match validate_event_id s now user eid with
    | some e => (s, .err e, [])
    | none =>
      let s' := createRegistration s eid user now
      let log := if notifyOk then [] else ["Failed to send email"]
      (s', .created ⟨eid, user, now⟩, log)

/-- Result of the unregister endpoint. -/
inductive UnregResult where
  | success
  | err (e : RegError)
deriving Repr, DecidableEq

/-- Endpoint `EventViewSet.unregister` (`src/events/views.py` lines
140-160): `get_object` (404 when the event id is absent), then
`EventRegistration.objects.get(event=event, user=request.user)` and
`registration.delete()` — success 200 — or `DoesNotExist` → 404
`NotRegistered`.  No check of the event's date appears anywhere in the
endpoint; deleting the unique matching row is removal of every row of the
(event, user) pair. -/
def unregister (s : State) (user eid : Nat) : State × UnregResult :=
  match findEvent s eid with
  | none => (s, .err .NotFound)
  | some _ =>
    if isRegistered s eid user then
      ({ s with registrations :=
          s.registrations.filter (fun r => !(r.event == eid && r.user == user)) },
        .success)
    else (s, .err .NotRegistered)

/-- Result of the registrations listing endpoint. -/
inductive ListResult where
  | ok (l : List EventRegistration)
  | err (e : RegError)
deriving Repr, DecidableEq

/-- Comparator of the default queryset order of `EventRegistration`:
`Meta.ordering = ['-registered_at']` (`src/events/models.py` line 69),
i.e. newest `registered_at` first. -/
def byRegisteredAtDesc (a b : EventRegistration) : Bool :=
  decide (b.registered_at ≤ a.registered_at)

/-- Endpoint `EventViewSet.registrations` (`src/events/views.py` lines
162-177): `get_object`, then a 403 unless `event.organizer ==
request.user`, else `EventRegistration.objects.filter(event=event)`
returned in the model's default `-registered_at` order. -/
def listRegistrations (s : State) (user eid : Nat) : ListResult :=
  match findEvent s eid with
  | none => .err .NotFound
  | some event =>
    if event.organizer != user then .err .Forbidden
    else .ok ((s.registrations.filter (fun r => r.event == eid)).mergeSort
        byRegisteredAtDesc)

/-- One sequential call against the service: a register attempt
(with its admission time and notification outcome) or an unregister. -/
inductive Op where
  | reg (now user eid : Nat) (notifyOk : Bool)
  | unreg (user eid : Nat)
deriving Repr, DecidableEq

/-- State reached after one call. -/
def applyOp (s : State) : Op → State
  | .reg now user eid notifyOk => (register s now user eid notifyOk).1
  | .unreg user eid => (unregister s user eid).1

/-- State reached after a sequence of calls. -/
def runOps (s : State) (ops : List Op) : State := ops.foldl applyOp s

/-- Interleaved execution of two concurrent register calls for the same
event under the schedule: A validates, B validates, A commits, B commits.
The code runs `serializer.is_valid()` and `serializer.save()` as two
separate database round-trips with no transaction or lock around them
(`src/events/views.py` lines 119-120, `src/events/serializers.py` lines
61-86), so this schedule is realizable.  A commit re-fetches nothing;
it only performs the row insert, which the database rejects (integrity
error, here `none`) when the `unique_together` pair already exists.
Returns the final state and whether each call reported success. -/
def raceRegister2 (s : State) (now ua ub eid : Nat) : State × Bool × Bool :=
  let va := (validate_event_id s now ua eid).isNone
  let vb := (validate_event_id s now ub eid).isNone
  let step := fun (st : State) (v : Bool) (u : Nat) =>
    if v then
      if isRegistered st eid u then (st, false)
      else (createRegistration st eid u now, true)
    else (st, false)
  let (s1, oka) := step s va ua
  let (s2, okb) := step s1 vb ub
  (s2, oka, okb)

/-! Helper lemmas shared by the claim theorems. -/

/-- Neither endpoint writes to the `Event` table: `register` leaves
`events` unchanged. -/
lemma register_events (s : State) (now user eid : Nat) (nok : Bool) :
    ((register s now user eid nok).1).events = s.events := by
  unfold register
  cases h : findEvent s eid with
  | none => rfl
  | some e =>
    cases hv : validate_event_id s now user eid with
    | none => rfl
    | some er => rfl

/-- The `unregister` endpoint leaves the `events` table unchanged. -/
lemma unregister_events (s : State) (user eid : Nat) :
    ((unregister s user eid).1).events = s.events := by
  unfold unregister
  cases h : findEvent s eid with
  | none => rfl
  | some e =>
    by_cases hr : isRegistered s eid user <;> simp [hr]

/-- Event lookup only reads the `events` table. -/
lemma findEvent_congr {s₁ s₂ : State} (h : s₁.events = s₂.events) (eid : Nat) :
    findEvent s₁ eid = findEvent s₂ eid := by
  unfold findEvent
  rw [h]

/-- When validation passes, each of the three data checks was false. -/
lemma validate_none_inv {s : State} {now user eid : Nat} {e : Event}
    (hfind : findEvent s eid = some e)
    (hv : validate_event_id s now user eid = none) :
    is_past now e = false ∧ is_full s e = false ∧ isRegistered s eid user = false := by
  unfold validate_event_id at hv
  rw [hfind] at hv
  by_cases h1 : is_past now e <;> by_cases h2 : is_full s e <;>
    by_cases h3 : isRegistered s eid user <;> simp_all

/-- A register call either leaves the state unchanged and reports a typed
error, or validation passed and it appends exactly the new row. -/
lemma register_cases (s : State) (now user eid : Nat) (nok : Bool) :
    ((register s now user eid nok).1 = s ∧
      ∃ er, (register s now user eid nok).2.1 = .err er) ∨
    (validate_event_id s now user eid = none ∧
      (register s now user eid nok).1 = createRegistration s eid user now ∧
      (register s now user eid nok).2.1 = .created ⟨eid, user, now⟩) := by
  unfold register
  cases h : findEvent s eid with
  | none => exact Or.inl ⟨rfl, .NotFound, rfl⟩
  | some e =>
    cases hv : validate_event_id s now user eid with
    | none => exact Or.inr ⟨rfl, rfl, rfl⟩
    | some er => exact Or.inl ⟨rfl, er, rfl⟩

/-- Inserting a row for event `eid` raises that event's live count by one. -/
lemma registered_count_create_same (s : State) (eid user now : Nat) :
    registered_count (createRegistration s eid user now) eid =
      registered_count s eid + 1 := by
  simp [registered_count, createRegistration, List.filter_append]

/-- Inserting a row for a different event leaves the count unchanged. -/
lemma registered_count_create_other (s : State) (eid' user now eid : Nat)
    (h : eid' ≠ eid) :
    registered_count (createRegistration s eid' user now) eid =
      registered_count s eid := by
  simp [registered_count, createRegistration, List.filter_append, h]

/-- Removing the rows matching `q` removes exactly the `q`-count from the
`p`-count, when every `q` row is a `p` row. -/
lemma length_filter_compl_add {α : Type} (p q : α → Bool)
    (hpq : ∀ a, q a = true → p a = true) (l : List α) :
    ((l.filter (fun a => !q a)).filter p).length + (l.filter q).length
      = (l.filter p).length := by
  induction l with
  | nil => rfl
  | cons a t ih =>
    simp only [List.filter_filter] at ih ⊢
    cases hq : q a with
    | true =>
      have hp := hpq a hq
      simp [List.filter_cons, hq, hp]
      omega
    | false =>
      cases hp : p a with
      | true => simp [List.filter_cons, hq, hp]; omega
      | false => simp [List.filter_cons, hq, hp]; omega

/-- Deleting the (eid, u) rows removes exactly `pairCount` rows from the
event's live count. -/
lemma length_filter_remove (l : List EventRegistration) (eid u : Nat) :
    ((l.filter (fun r => !(r.event == eid && r.user == u))).filter
        (fun r => r.event == eid)).length
      + (l.filter (fun r => r.event == eid && r.user == u)).length
      = (l.filter (fun r => r.event == eid)).length := by
  refine length_filter_compl_add _ _ (fun r h => ?_) l
  simp_all

/-- After deleting the (eid, u) rows, the pair lookup comes back empty. -/
lemma isRegistered_after_filter (l : List EventRegistration) (eid u : Nat) :
    (l.filter (fun r => !(r.event == eid && r.user == u))).any
      (fun r => r.event == eid && r.user == u) = false := by
  rw [List.any_eq_false]
  intro r hr
  have h2 := (List.mem_filter.mp hr).2
  simp_all
  tauto

/-- A positive pair count means the exists-lookup succeeds. -/
lemma isRegistered_of_pairCount {s : State} {eid u : Nat}
    (h : 0 < pairCount s eid u) : isRegistered s eid u = true := by
  unfold pairCount at h
  unfold isRegistered
  rw [List.any_eq_true]
  rcases List.exists_mem_of_length_pos h with ⟨r, hr⟩
  exact ⟨r, (List.mem_filter.mp hr).1, (List.mem_filter.mp hr).2⟩

/-- Unregister with no live registration: 404, state unchanged. -/
lemma unregister_not_registered {s : State} {user eid : Nat} {e : Event}
    (hfind : findEvent s eid = some e) (h : isRegistered s eid user = false) :
    unregister s user eid = (s, .err .NotRegistered) := by
  unfold unregister
  rw [hfind]
  simp [h]

/-- Unregister with a live registration: success, pair rows removed. -/
lemma unregister_registered {s : State} {user eid : Nat} {e : Event}
    (hfind : findEvent s eid = some e) (h : isRegistered s eid user = true) :
    unregister s user eid =
      ({ s with registrations :=
          s.registrations.filter (fun r => !(r.event == eid && r.user == user)) },
        .success) := by
  unfold unregister
  rw [hfind]
  simp [h]

/-- Register when validation fails: the serializer error, state unchanged. -/
lemma register_validate_err {s : State} {now user eid : Nat} {nok : Bool}
    {e : Event} {er : RegError}
    (hfind : findEvent s eid = some e)
    (hv : validate_event_id s now user eid = some er) :
    register s now user eid nok = (s, .err er, []) := by
  unfold register
  rw [hfind, hv]

/-- Register when validation passes: row appended, 201, log per the
notification outcome. -/
lemma register_validate_ok {s : State} {now user eid : Nat} {nok : Bool}
    {e : Event}
    (hfind : findEvent s eid = some e)
    (hv : validate_event_id s now user eid = none) :
    register s now user eid nok =
      (createRegistration s eid user now, .created ⟨eid, user, now⟩,
        if nok then [] else ["Failed to send email"]) := by
  unfold register
  rw [hfind, hv]

/-- Validation stops at the `is_past` check. -/
lemma validate_eq_closed {s : State} {now user eid : Nat} {e : Event}
    (hfind : findEvent s eid = some e) (hpast : is_past now e = true) :
    validate_event_id s now user eid = some .Closed := by
  unfold validate_event_id
  rw [hfind]
  simp [hpast]

/-- Validation stops at the `is_full` check. -/
lemma validate_eq_full {s : State} {now user eid : Nat} {e : Event}
    (hfind : findEvent s eid = some e) (hpast : is_past now e = false)
    (hfull : is_full s e = true) :
    validate_event_id s now user eid = some .Full := by
  unfold validate_event_id
  rw [hfind]
  simp [hpast, hfull]

/-- Validation stops at the already-registered check. -/
lemma validate_eq_already {s : State} {now user eid : Nat} {e : Event}
    (hfind : findEvent s eid = some e) (hpast : is_past now e = false)
    (hfull : is_full s e = false) (hreg : isRegistered s eid user = true) :
    validate_event_id s now user eid = some .AlreadyRegistered := by
  unfold validate_event_id
  rw [hfind]
  simp [hpast, hfull, hreg]

/-- Validation passes when all three data checks are false. -/
lemma validate_eq_none {s : State} {now user eid : Nat} {e : Event}
    (hfind : findEvent s eid = some e) (hpast : is_past now e = false)
    (hfull : is_full s e = false) (hreg : isRegistered s eid user = false) :
    validate_event_id s now user eid = none := by
  unfold validate_event_id
  rw [hfind]
  simp [hpast, hfull, hreg]

/-! Claim theorems. -/

/-- C2 (code bug witness): the check-and-insert of Register is NOT atomic.
With capacity 1 and no registrations, two distinct users whose register
calls interleave as validate-A, validate-B, commit-A, commit-B both pass
the `is_full` check and both commit: both report success and the final
live count is 2, above the capacity 1. -/
theorem c2_race_both_succeed :
    (raceRegister2 ⟨[⟨1, 9, 100, some 1⟩], []⟩ 10 4 5 1).2 = (true, true) ∧
    registered_count (raceRegister2 ⟨[⟨1, 9, 100, some 1⟩], []⟩ 10 4 5 1).1 1 = 2 ∧
    Event.max_participants ⟨1, 9, 100, some 1⟩ = some 1 := by decide

/-- C3 (counterexample): a caller already registered for an event that is
also at capacity receives `Full`, not `AlreadyRegistered` — the code
checks `is_full` before the already-registered lookup. -/
theorem c3_counterexample :
    isRegistered ⟨[⟨1, 9, 100, some 1⟩], [⟨1, 7, 50⟩]⟩ 1 7 = true ∧
    is_full ⟨[⟨1, 9, 100, some 1⟩], [⟨1, 7, 50⟩]⟩ ⟨1, 9, 100, some 1⟩ = true ∧
    is_past 60 ⟨1, 9, 100, some 1⟩ = false ∧
    (register ⟨[⟨1, 9, 100, some 1⟩], [⟨1, 7, 50⟩]⟩ 60 7 1 true).2.1 =
      .err .Full ∧
    RegError.Full ≠ RegError.AlreadyRegistered := by decide

/-- C3 (amended): Register checks its preconditions in the order NotFound,
Closed, Full, AlreadyRegistered — capacity before duplicate registration —
each yielding its own failure; with all four passed it creates the row. -/
theorem c3_amended_check_order (s : State) (now user eid : Nat) (nok : Bool) :
    (findEvent s eid = none →
      (register s now user eid nok).2.1 = .err .NotFound) ∧
    (∀ e, findEvent s eid = some e → is_past now e = true →
      (register s now user eid nok).2.1 = .err .Closed) ∧
    (∀ e, findEvent s eid = some e → is_past now e = false → is_full s e = true →
      (register s now user eid nok).2.1 = .err .Full) ∧
    (∀ e, findEvent s eid = some e → is_past now e = false → is_full s e = false →
      isRegistered s eid user = true →
      (register s now user eid nok).2.1 = .err .AlreadyRegistered) ∧
    (∀ e, findEvent s eid = some e → is_past now e = false → is_full s e = false →
      isRegistered s eid user = false →
      (register s now user eid nok).2.1 = .created ⟨eid, user, now⟩) := by
  refine ⟨?_, ?_, ?_, ?_, ?_⟩
  · intro h
    unfold register
    rw [h]
  · intro e hfind hpast
    rw [register_validate_err hfind (validate_eq_closed hfind hpast)]
  · intro e hfind hpast hfull
    rw [register_validate_err hfind (validate_eq_full hfind hpast hfull)]
  · intro e hfind hpast hfull hreg
    rw [register_validate_err hfind (validate_eq_already hfind hpast hfull hreg)]
  · intro e hfind hpast hfull hreg
    rw [register_validate_ok hfind (validate_eq_none hfind hpast hfull hreg)]

/-- C3 (witness for the amended theorem): on a concrete full event the
already-registered caller gets `Full`. -/
theorem c3_amended_witness :
    (register ⟨[⟨1, 9, 100, some 1⟩], [⟨1, 7, 50⟩]⟩ 60 7 1 true).2.1 =
      .err .Full :=
  (c3_amended_check_order ⟨[⟨1, 9, 100, some 1⟩], [⟨1, 7, 50⟩]⟩ 60 7 1 true).2.2.1
    ⟨1, 9, 100, some 1⟩ (by decide) (by decide) (by decide)

/-- C4 (counterexample): an event whose start time equals the admission
time — so the start is not strictly in the future — is still admitted:
Register returns 201-created, not `Closed`. -/
theorem c4_counterexample :
    Event.date ⟨1, 9, 100, none⟩ = 100 ∧
    (register ⟨[⟨1, 9, 100, none⟩], []⟩ 100 5 1 true).2.1 =
      .created ⟨1, 5, 100⟩ ∧
    (register ⟨[⟨1, 9, 100, none⟩], []⟩ 100 5 1 true).2.1 ≠ .err .Closed := by
  decide

/-- C4 (amended): Register fails with `Closed` exactly for events whose
start time is strictly BEFORE the admission time, regardless of capacity
and registration state; a successful Register requires the start time to
be at or after the admission time. -/
theorem c4_amended_closed_iff_strictly_before (s : State) (now user eid : Nat)
    (nok : Bool) :
    (∀ e, findEvent s eid = some e → e.date < now →
      (register s now user eid nok).2.1 = .err .Closed) ∧
    (∀ r, (register s now user eid nok).2.1 = .created r →
      ∃ e, findEvent s eid = some e ∧ now ≤ e.date) := by
  constructor
  · intro e hfind hlt
    have hpast : is_past now e = true := by simp [is_past, hlt]
    rw [register_validate_err hfind (validate_eq_closed hfind hpast)]
  · intro r hr
    cases hfe : findEvent s eid with
    | none =>
      unfold register at hr
      rw [hfe] at hr
      exact absurd hr (by simp)
    | some e =>
      refine ⟨e, rfl, ?_⟩
      cases hv : validate_event_id s now user eid with
      | some er =>
        rw [register_validate_err hfe hv] at hr
        exact absurd hr (by simp)
      | none =>
        have hpast := (validate_none_inv hfe hv).1
        simp [is_past] at hpast
        omega

/-- C4 (witness for the amended theorem): a concrete strictly-past event
is refused with `Closed`. -/
theorem c4_amended_witness :
    (register ⟨[⟨1, 9, 100, none⟩], []⟩ 200 5 1 true).2.1 = .err .Closed :=
  (c4_amended_closed_iff_strictly_before ⟨[⟨1, 9, 100, none⟩], []⟩ 200 5 1
    true).1 ⟨1, 9, 100, none⟩ (by decide) (by decide)

/-- C6: Unregister succeeds exactly when the caller holds a live
registration for the (existing) event, deleting that registration;
otherwise it fails with `NotRegistered` and leaves the state unchanged.
Called twice in succession it yields one success then one
`NotRegistered`. -/
theorem c6_unregister_exact (s : State) (user eid : Nat) (e : Event)
    (hfind : findEvent s eid = some e) :
    (isRegistered s eid user = false →
      unregister s user eid = (s, .err .NotRegistered)) ∧
    (isRegistered s eid user = true →
      (unregister s user eid).2 = .success ∧
      (∀ r, r ∈ ((unregister s user eid).1).registrations ↔
        (r ∈ s.registrations ∧ ¬(r.event = eid ∧ r.user = user))) ∧
      unregister (unregister s user eid).1 user eid =
        ((unregister s user eid).1, .err .NotRegistered)) := by
  constructor
  · intro h
    exact unregister_not_registered hfind h
  · intro h
    have hstate := unregister_registered hfind h
    refine ⟨by rw [hstate], ?_, ?_⟩
    · intro r
      rw [hstate]
      simp only [List.mem_filter]
      constructor
      · rintro ⟨hm, hc⟩
        refine ⟨hm, ?_⟩
        simp at hc
        tauto
      · rintro ⟨hm, hc⟩
        refine ⟨hm, ?_⟩
        simp
        tauto
    · have hev : ((unregister s user eid).1).events = s.events :=
        unregister_events s user eid
      have hfind2 : findEvent (unregister s user eid).1 eid = some e := by
        rw [findEvent_congr hev eid]
        exact hfind
      have hnr : isRegistered (unregister s user eid).1 eid user = false := by
        rw [hstate]
        exact isRegistered_after_filter s.registrations eid user
      exact unregister_not_registered hfind2 hnr

/-- C6 (witness): concrete double unregister — one success, then 404. -/
theorem c6_witness :
    (unregister ⟨[⟨1, 9, 100, none⟩], [⟨1, 4, 10⟩]⟩ 4 1).2 = UnregResult.success :=
  ((c6_unregister_exact ⟨[⟨1, 9, 100, none⟩], [⟨1, 4, 10⟩]⟩ 4 1 ⟨1, 9, 100, none⟩
    (by decide)).2 (by decide)).1

/-- C7: the outcome of the post-commit notification attempt never changes
the endpoint's response or the committed state: with the notification
failing, the response and database state equal those of the succeeding
run, the created row is still committed, and the failure shows up only in
the log. -/
theorem c7_notification_isolated (s : State) (now user eid : Nat) :
    (register s now user eid false).1 = (register s now user eid true).1 ∧
    (register s now user eid false).2.1 = (register s now user eid true).2.1 ∧
    (∀ r, (register s now user eid false).2.1 = .created r →
      r ∈ ((register s now user eid false).1).registrations ∧
      (register s now user eid false).2.2 = ["Failed to send email"]) := by
  cases hfe : findEvent s eid with
  | none =>
    unfold register
    rw [hfe]
    simp
  | some e =>
    cases hv : validate_event_id s now user eid with
    | some er =>
      rw [register_validate_err hfe hv, register_validate_err hfe hv]
      simp
    | none =>
      rw [register_validate_ok hfe hv, register_validate_ok hfe hv]
      refine ⟨rfl, rfl, ?_⟩
      intro r hr
      simp at hr
      subst hr
      simp [createRegistration]

/-- C7 (witness): a concrete successful admission with failing
notification — row committed, failure only in the log. -/
theorem c7_witness :
    (⟨1, 4, 10⟩ : EventRegistration) ∈
      ((register ⟨[⟨1, 9, 100, none⟩], []⟩ 10 4 1 false).1).registrations ∧
    (register ⟨[⟨1, 9, 100, none⟩], []⟩ 10 4 1 false).2.2 =
      ["Failed to send email"] :=
  (c7_notification_isolated ⟨[⟨1, 9, 100, none⟩], []⟩ 10 4 1).2.2 ⟨1, 4, 10⟩
    (by decide)

/-- C8 (counterexample): the typed errors do NOT all map to distinct
status codes — `Closed` and `Full` are distinct errors yet both return
HTTP 400 (so do `AlreadyRegistered`, and `NotFound`/`NotRegistered` share
404). -/
theorem c8_counterexample :
    RegError.Closed ≠ RegError.Full ∧
    statusCode .Closed = statusCode .Full := by decide

/-- C8 (amended): each typed error maps to a stable status code — 404 for
`NotFound` and `NotRegistered`, 400 for `Closed`, `Full` and
`AlreadyRegistered`, 403 for `Forbidden`, 401 for `Unauthenticated` — and
the codes alone do not separate all kinds; what separates them is the
message text, which is distinct for every pair of distinct errors. -/
theorem c8_amended_codes_and_messages :
    (∀ e1 e2 : RegError, errorMessage e1 = errorMessage e2 → e1 = e2) ∧
    statusCode .NotFound = 404 ∧ statusCode .Closed = 400 ∧
    statusCode .Full = 400 ∧ statusCode .AlreadyRegistered = 400 ∧
    statusCode .NotRegistered = 404 ∧ statusCode .Forbidden = 403 ∧
    statusCode .Unauthenticated = 401 := by
  refine ⟨?_, rfl, rfl, rfl, rfl, rfl, rfl, rfl⟩
  intro e1 e2 h
  cases e1 <;> cases e2 <;> revert h <;> decide

/-- C8 (witness for the amended theorem): message equality at `Closed`
pins the error down to `Closed`. -/
theorem c8_amended_witness : RegError.Closed = RegError.Closed :=
  c8_amended_codes_and_messages.1 .Closed .Closed rfl

/-- C10: Unregister performs no check of the event's start time — a
caller registered for an event whose date has already passed still
unregisters successfully. -/
theorem c10_unregister_ignores_past (s : State) (now user eid : Nat) (e : Event)
    (hfind : findEvent s eid = some e) (_hpast : is_past now e = true)
    (hreg : isRegistered s eid user = true) :
    (unregister s user eid).2 = .success := by
  rw [unregister_registered hfind hreg]

/-- C10 (witness): concrete past event, registered caller, unregister
succeeds. -/
theorem c10_witness :
    (unregister ⟨[⟨1, 9, 100, none⟩], [⟨1, 4, 10⟩]⟩ 4 1).2 = UnregResult.success ∧
    is_past 200 ⟨1, 9, 100, none⟩ = true :=
  ⟨c10_unregister_ignores_past ⟨[⟨1, 9, 100, none⟩], [⟨1, 4, 10⟩]⟩ 200 4 1
    ⟨1, 9, 100, none⟩ (by decide) (by decide) (by decide), by decide⟩

/-- The event returned by the id lookup carries that id. -/
lemma findEvent_id {s : State} {eid : Nat} {e : Event}
    (h : findEvent s eid = some e) : e.id = eid := by
  unfold findEvent at h
  have := List.find?_some h
  simpa using this

/-- Filtering first can only shrink a filtered length. -/
lemma length_filter_filter_le {α : Type} (p q : α → Bool) (l : List α) :
    ((l.filter q).filter p).length ≤ (l.filter p).length :=
  ((List.filter_sublist l).filter p).length_le

/-- One endpoint call preserves a set capacity bound and the events
table: after any register or unregister the event is still found and its
live count still respects `C`. -/
lemma applyOp_preserves {eid : Nat} {e : Event} {C : Nat}
    (hcap : e.max_participants = some C) (op : Op) (s : State)
    (hfind : findEvent s eid = some e) (hle : registered_count s eid ≤ C) :
    findEvent (applyOp s op) eid = some e ∧
    registered_count (applyOp s op) eid ≤ C := by
  cases op with
  | unreg u eid' =>
    have hev : ((unregister s u eid').1).events = s.events :=
      unregister_events s u eid'
    refine ⟨?_, ?_⟩
    · show findEvent (unregister s u eid').1 eid = some e
      rw [findEvent_congr hev eid]
      exact hfind
    show registered_count (unregister s u eid').1 eid ≤ C
    unfold unregister
    cases hfe : findEvent s eid' with
    | none => simpa using hle
    | some e' =>
      by_cases hr : isRegistered s eid' u
      · simp only [hr, if_true]
        refine le_trans ?_ hle
        unfold registered_count
        exact length_filter_filter_le _ _ s.registrations
      · simpa [hr] using hle
  | reg now' u eid' nok =>
    have hev := register_events s now' u eid' nok
    refine ⟨?_, ?_⟩
    · show findEvent (register s now' u eid' nok).1 eid = some e
      rw [findEvent_congr hev eid]
      exact hfind
    show registered_count (register s now' u eid' nok).1 eid ≤ C
    rcases register_cases s now' u eid' nok with ⟨hs, _⟩ | ⟨hv, hs, _⟩
    · rw [hs]; exact hle
    · rw [hs]
      by_cases heq : eid' = eid
      · subst heq
        have hfull := (validate_none_inv hfind hv).2.1
        unfold is_full at hfull
        rw [hcap] at hfull
        simp [findEvent_id hfind] at hfull
        rw [registered_count_create_same]
        omega
      · rw [registered_count_create_other s eid' u now' eid heq]
        exact hle

/-- A set capacity bound is preserved by every sequence of calls. -/
lemma runOps_preserves {eid : Nat} {e : Event} {C : Nat}
    (hcap : e.max_participants = some C) (ops : List Op) :
    ∀ s, findEvent s eid = some e → registered_count s eid ≤ C →
      registered_count (runOps s ops) eid ≤ C := by
  induction ops with
  | nil => intro s _ hle; exact hle
  | cons op t ih =>
    intro s hfind hle
    have h1 := applyOp_preserves hcap op s hfind hle
    exact ih (applyOp s op) h1.1 h1.2

/-- C1: for an event whose capacity is set to `C`, the live registration
count never exceeds `C` under any sequence of register/unregister calls;
Register answers `Full` whenever the count has reached `C` (on a non-past
event, where the capacity check is reached), and a successful Register
never pushes the count above `C`. -/
theorem c1_capacity_never_exceeded (s : State) (eid : Nat) (e : Event) (C : Nat)
    (hfind : findEvent s eid = some e) (hcap : e.max_participants = some C)
    (hle : registered_count s eid ≤ C) :
    (∀ ops, registered_count (runOps s ops) eid ≤ C) ∧
    (∀ now user nok, is_past now e = false → C ≤ registered_count s eid →
      (register s now user eid nok).2.1 = .err .Full) ∧
    (∀ now user nok r, (register s now user eid nok).2.1 = .created r →
      registered_count ((register s now user eid nok).1) eid ≤ C) := by
  refine ⟨?_, ?_, ?_⟩
  · intro ops
    exact runOps_preserves hcap ops s hfind hle
  · intro now user nok hpast hge
    have hfull : is_full s e = true := by
      unfold is_full
      rw [hcap]
      simp [findEvent_id hfind]
      exact hge
    rw [register_validate_err hfind (validate_eq_full hfind hpast hfull)]
  · intro now user nok r hr
    rcases register_cases s now user eid nok with ⟨hs, er, herr⟩ | ⟨hv, hs, _⟩
    · rw [herr] at hr
      exact absurd hr (by simp)
    · have hfull := (validate_none_inv hfind hv).2.1
      unfold is_full at hfull
      rw [hcap] at hfull
      simp [findEvent_id hfind] at hfull
      rw [hs, registered_count_create_same]
      omega

/-- C1 (witness): capacity 1, two register attempts and an unregister —
the count stays at most 1. -/
theorem c1_witness :
    registered_count (runOps ⟨[⟨1, 9, 100, some 1⟩], []⟩
      [Op.reg 10 4 1 true, Op.reg 10 5 1 true, Op.unreg 4 1]) 1 ≤ 1 :=
  (c1_capacity_never_exceeded ⟨[⟨1, 9, 100, some 1⟩], []⟩ 1 ⟨1, 9, 100, some 1⟩ 1
    (by decide) rfl (by decide)).1
    [Op.reg 10 4 1 true, Op.reg 10 5 1 true, Op.unreg 4 1]

/-- C5: the registrations listing answers `Forbidden` to every caller who
is not the event's organizer; to the organizer it returns exactly the
event's live registrations, ordered by `registered_at` (creation time)
descending. -/
theorem c5_listing_auth_and_order (s : State) (user eid : Nat) (e : Event)
    (hfind : findEvent s eid = some e) :
    (e.organizer ≠ user → listRegistrations s user eid = .err .Forbidden) ∧
    (e.organizer = user → ∃ l, listRegistrations s user eid = .ok l ∧
      List.Perm l (s.registrations.filter (fun r => r.event == eid)) ∧
      List.Sorted (fun a b => b.registered_at ≤ a.registered_at) l) := by
  constructor
  · intro h
    unfold listRegistrations
    rw [hfind]
    simp [h]
  · intro h
    refine ⟨(s.registrations.filter (fun r => r.event == eid)).mergeSort
      byRegisteredAtDesc, ?_, ?_, ?_⟩
    · unfold listRegistrations
      rw [hfind]
      simp [h]
    · exact List.mergeSort_perm _ _
    · have hs := @List.sorted_mergeSort EventRegistration byRegisteredAtDesc
        (fun a b c h₁ h₂ => by
          simp only [byRegisteredAtDesc, decide_eq_true_eq] at *
          omega)
        (fun a b => by
          simp only [byRegisteredAtDesc]
          rcases Nat.le_total b.registered_at a.registered_at with h' | h' <;>
            simp [h'])
        (s.registrations.filter (fun r => r.event == eid))
      simpa [byRegisteredAtDesc, List.Sorted] using hs

/-- C5 (witness): a non-organizer caller is refused with `Forbidden`. -/
theorem c5_witness :
    listRegistrations ⟨[⟨1, 9, 100, none⟩], [⟨1, 4, 10⟩]⟩ 8 1 =
      ListResult.err .Forbidden :=
  (c5_listing_auth_and_order ⟨[⟨1, 9, 100, none⟩], [⟨1, 4, 10⟩]⟩ 8 1
    ⟨1, 9, 100, none⟩ (by decide)).1 (by decide)

/-- C9: on a non-past event exactly at capacity, a registered caller who
unregisters can immediately register again — the freed slot is visible to
the admission check at once, because the count is recomputed from the
live rows. -/
theorem c9_unregister_then_register (s : State) (now user eid : Nat) (e : Event)
    (C : Nat) (nok : Bool)
    (hfind : findEvent s eid = some e) (hcap : e.max_participants = some C)
    (hpast : is_past now e = false)
    (hcount : registered_count s eid = C)
    (hpair : pairCount s eid user = 1) :
    (unregister s user eid).2 = .success ∧
    (register ((unregister s user eid).1) now user eid nok).2.1 =
      .created ⟨eid, user, now⟩ := by
  have hreg : isRegistered s eid user = true :=
    isRegistered_of_pairCount (by omega)
  have hstate := unregister_registered hfind hreg
  constructor
  · rw [hstate]
  · have hev : ((unregister s user eid).1).events = s.events :=
      unregister_events s user eid
    have hfind2 : findEvent (unregister s user eid).1 eid = some e := by
      rw [findEvent_congr hev eid]
      exact hfind
    have hcnt2 : registered_count ((unregister s user eid).1) eid + 1 = C := by
      rw [hstate]
      have hlr := length_filter_remove s.registrations eid user
      unfold registered_count at hcount ⊢
      unfold pairCount at hpair
      simp only at hlr hcount hpair ⊢
      omega
    have hfull2 : is_full (unregister s user eid).1 e = false := by
      unfold is_full
      rw [hcap]
      simp [findEvent_id hfind]
      omega
    have hreg2 : isRegistered (unregister s user eid).1 eid user = false := by
      rw [hstate]
      exact isRegistered_after_filter s.registrations eid user
    rw [register_validate_ok hfind2 (validate_eq_none hfind2 hpast hfull2 hreg2)]

/-- C9 (witness): capacity-1 event, its single registrant unregisters and
registers again successfully. -/
theorem c9_witness :
    (unregister ⟨[⟨1, 9, 100, some 1⟩], [⟨1, 4, 10⟩]⟩ 4 1).2 =
      UnregResult.success ∧
    (register ((unregister ⟨[⟨1, 9, 100, some 1⟩], [⟨1, 4, 10⟩]⟩ 4 1).1)
      50 4 1 true).2.1 = RegResult.created ⟨1, 4, 50⟩ :=
  c9_unregister_then_register ⟨[⟨1, 9, 100, some 1⟩], [⟨1, 4, 10⟩]⟩ 50 4 1
    ⟨1, 9, 100, some 1⟩ 1 true (by decide) rfl (by decide) (by decide) (by decide)
